import Mathlib

/-!
Verification of the statistical sleep-deviation engine: a shallow embedding of
the repository's `SleepAnalyzer` class (sleep-analysis library) together with
`determineSHDICategory` from its type module, and proofs of the specified
properties of `analyze` and its five computational stages.

Modelling conventions.  JavaScript numbers are modelled by real numbers;
`Date` values by their millisecond timestamps (integers), since the engine
uses dates only for ordering; thrown errors by `Except String`.
`Array.prototype.sort` with the comparator
`(a, b) => a.date.getTime() - b.date.getTime()` is a stable ascending sort by
date and is modelled by `List.insertionSort` on the date order, which is
likewise stable (it inserts each element before the first element it compares
less-or-equal to, scanning from the left, so elements with equal dates keep
their input order).
-/

namespace SleepAnalysis

/-- One night of sleep-wearable measurements (`SleepRecord` in the type module). -/
structure SleepRecord where
  date : ℤ
  total_sleep_min : ℝ
  sleep_efficiency : ℝ
  deep_sleep_min : ℝ
  rem_sleep_min : ℝ
  awakenings : ℝ

instance : Inhabited SleepRecord := ⟨⟨0, 0, 0, 0, 0, 0⟩⟩

/-- Baseline-window summary statistics (`BaselineMetrics`). -/
structure BaselineMetrics where
  mean_total_sleep : ℝ
  std_total_sleep : ℝ
  mean_efficiency : ℝ
  std_efficiency : ℝ
  mean_deep : ℝ
  std_deep : ℝ
  mean_rem : ℝ
  std_rem : ℝ
  mean_awakenings : ℝ
  std_awakenings : ℝ
  rmssd : ℝ

/-- Per-metric deviation scores (`ZScores`). -/
structure ZScores where
  efficiency : ℝ
  deep_sleep : ℝ
  rem_sleep : ℝ
  awakenings : ℝ

/-- Per-metric regression slopes and efficiency significance (`TrendAnalysis`).
The boolean `has_significant_trend` of the source is modelled as a `Prop`. -/
structure TrendAnalysis where
  efficiency_slope : ℝ
  deep_slope : ℝ
  rem_slope : ℝ
  awakenings_slope : ℝ
  efficiency_pvalue : ℝ
  has_significant_trend : Prop

/-- The three SHDI categories of the type module. -/
inductive SHDICategory where
  | stable
  | moderate_drift
  | significant_drift
deriving DecidableEq

/-- Composite deviation index (`SHDIScore`). -/
structure SHDIScore where
  score : ℝ
  category : SHDICategory
  confidence : ℝ

/-- The four phenotype patterns, in the enumeration order of the source's
score table (the insertion order of its object literal). -/
inductive Pattern where
  | fragmentation_dominant
  | deep_sleep_reduction
  | rem_instability
  | efficiency_instability
deriving DecidableEq

instance : Inhabited Pattern := ⟨.fragmentation_dominant⟩

/-- Evidence strength labels of the phenotype table. -/
inductive Evidence where
  | strong
  | moderate
  | emerging
deriving DecidableEq

/-- Phenotype classification result (`RiskPhenotype`). -/
structure RiskPhenotype where
  primary_pattern : Pattern
  confidence : ℝ
  associated_domains : List String
  evidence_strength : Evidence

/-- Aggregate output of `analyze` (`SleepAnalysisResultTS`).  The ISO date
strings `start_date` and `end_date` are modelled by the timestamps they
render. -/
structure SleepAnalysisResultTS where
  days_analyzed : ℕ
  start_date : ℤ
  end_date : ℤ
  baseline : BaselineMetrics
  z_scores : ZScores
  trends : TrendAnalysis
  svi : ℝ
  shdi : SHDIScore
  phenotype : RiskPhenotype

/-- Message of the error thrown when fewer than 14 records are supplied
(the spec's `InsufficientDataError`). -/
def insufficientDataMsg : String :=
  "Insufficient data: minimum 14 days required"

/-- The epsilon floor `1e-6` used by the source for degenerate denominators. -/
noncomputable def epsilon : ℝ := 1 / 1000000

/-- Mean of a list of numbers (`SleepAnalyzer.mean`). -/
noncomputable def mean (arr : List ℝ) : ℝ := arr.sum / (arr.length : ℝ)

/-- Population standard deviation (`SleepAnalyzer.std`): the variance divides
by the length of the array. -/
noncomputable def std (arr : List ℝ) : ℝ :=
  Real.sqrt ((arr.map fun val => (val - mean arr) ^ 2).sum / (arr.length : ℝ))

/-- Successive differences `l[i] - l[i-1]`, as pushed by the source's
`for (let i = 1; ...)` loops. -/
noncomputable def succDiffs : List ℝ → List ℝ
  | [] => []
  | [_] => []
  | a :: b :: t => (b - a) :: succDiffs (b :: t)

/-- Root mean square of successive differences, as computed inline (twice) by
the source: square the successive differences, average, take the square root. -/
noncomputable def rmssdOf (totals : List ℝ) : ℝ :=
  let diffs := succDiffs totals
  Real.sqrt ((diffs.map fun diff => diff * diff).sum / (diffs.length : ℝ))

/-- The baseline window: the last `min 30 N` records (`records.slice(-Math.min(30, N))`). -/
def baselineWindow (records : List SleepRecord) : List SleepRecord :=
  records.drop (records.length - min 30 records.length)

/-- Body of `computeBaselineStats` after its minimum-data guard. -/
noncomputable def computeBaselineStatsCore (records : List SleepRecord) : BaselineMetrics :=
  let w := baselineWindow records
  { mean_total_sleep := mean (w.map (·.total_sleep_min))
    std_total_sleep := std (w.map (·.total_sleep_min))
    mean_efficiency := mean (w.map (·.sleep_efficiency))
    std_efficiency := std (w.map (·.sleep_efficiency))
    mean_deep := mean (w.map (·.deep_sleep_min))
    std_deep := std (w.map (·.deep_sleep_min))
    mean_rem := mean (w.map (·.rem_sleep_min))
    std_rem := std (w.map (·.rem_sleep_min))
    mean_awakenings := mean (w.map (·.awakenings))
    std_awakenings := std (w.map (·.awakenings))
    rmssd := rmssdOf (w.map (·.total_sleep_min)) }

/-- The source's `computeBaselineStats`, including its own minimum-data guard. -/
noncomputable def computeBaselineStats (records : List SleepRecord) :
    Except String BaselineMetrics :=
  if records.length < 14 then .error insufficientDataMsg
  else .ok (computeBaselineStatsCore records)

/-- Standard error of the mean with the epsilon floor, as in `calculateZScores`:
`Math.max(std / Math.sqrt(n), epsilon * (Math.abs(mean) + 1), epsilon)`. -/
noncomputable def sem (n : ℕ) (stdv meanv : ℝ) : ℝ :=
  max (stdv / Real.sqrt (n : ℝ)) (max (epsilon * (|meanv| + 1)) epsilon)

/-- The source's `calculateZScores`. -/
noncomputable def calculateZScores (recentRecords : List SleepRecord)
    (baseline : BaselineMetrics) : ZScores :=
  if recentRecords.length = 0 then ⟨0, 0, 0, 0⟩
  else
    let n := recentRecords.length
    { efficiency := (mean (recentRecords.map (·.sleep_efficiency)) - baseline.mean_efficiency) /
        sem n baseline.std_efficiency baseline.mean_efficiency
      deep_sleep := (mean (recentRecords.map (·.deep_sleep_min)) - baseline.mean_deep) /
        sem n baseline.std_deep baseline.mean_deep
      rem_sleep := (mean (recentRecords.map (·.rem_sleep_min)) - baseline.mean_rem) /
        sem n baseline.std_rem baseline.mean_rem
      awakenings := (mean (recentRecords.map (·.awakenings)) - baseline.mean_awakenings) /
        sem n baseline.std_awakenings baseline.mean_awakenings }

/-- Slope and intercept of `linearRegression` from the `simple-statistics`
dependency: for a single point the slope is `0` and the intercept that point,
otherwise `m = (n * sumXY - sumX * sumY) / (n * sumXX - sumX * sumX)` and
`b = sumY / n - (m * sumX) / n`. -/
noncomputable def linearRegression (data : List (ℝ × ℝ)) : ℝ × ℝ :=
  if data.length = 1 then (0, data.headI.2)
  else
    let n : ℝ := (data.length : ℝ)
    let sumX := (data.map Prod.fst).sum
    let sumY := (data.map Prod.snd).sum
    let sumXX := (data.map fun p => p.1 * p.1).sum
    let sumXY := (data.map fun p => p.1 * p.2).sum
    let m := (n * sumXY - sumX * sumY) / (n * sumXX - sumX * sumX)
    (m, sumY / n - m * sumX / n)

/-- Residuals `yi - (slope * xi + intercept)` with `intercept = meanY - slope * meanX`,
as in `calculateTrendPValue`. -/
noncomputable def regressionResiduals (x y : List ℝ) (slope : ℝ) : List ℝ :=
  let intercept := mean y - slope * mean x
  (y.zip x).map fun p => p.1 - (slope * p.2 + intercept)

/-- Standard error of the slope in `calculateTrendPValue`:
`sqrt(mse / ssx)` with `mse = sse / (n - 2)` over the residuals and
`ssx = sum((xi - meanX)^2)`. -/
noncomputable def seSlope (x y : List ℝ) (slope : ℝ) : ℝ :=
  let sse := ((regressionResiduals x y slope).map fun r => r * r).sum
  let mse := sse / ((x.length : ℝ) - 2)
  let ssx := (x.map fun xi => (xi - mean x) ^ 2).sum
  Real.sqrt (mse / ssx)

/-- The source's `normalCDF` approximation of the standard normal CDF. -/
noncomputable def normalCDF (z : ℝ) : ℝ :=
  let t := 1 / (1 + 0.2316419 * |z|)
  let d := 0.3989423 * Real.exp (-z * z / 2)
  let prob := d * t *
    (0.3193815 + t * (-0.3565638 + t * (1.781478 + t * (-1.821256 + t * 1.330274))))
  if 0 < z then 1 - prob else prob

/-- The source's `tCDF` approximation: normal CDF for more than 30 degrees of
freedom, a power-law tail otherwise (`Math.pow` is real exponentiation). -/
noncomputable def tCDF (t : ℝ) (df : ℕ) : ℝ :=
  if 30 < df then normalCDF t
  else
    let x := (df : ℝ) / ((df : ℝ) + t * t)
    1 - 0.5 * x ^ ((df : ℝ) / 2)

/-- The source's `calculateTrendPValue` (simplified two-tailed t-test),
returning `1.0` for fewer than 3 points. -/
noncomputable def calculateTrendPValue (x y : List ℝ) (slope : ℝ) : ℝ :=
  if x.length < 3 then 1
  else
    let t := |slope / seSlope x y slope|
    let df := x.length - 2
    let p := 2 * (1 - tCDF t df)
    max 0 (min 1 p)

/-- Threshold `-0.02` per day for a declining efficiency trend
(`EFFICIENCY_DECLINE_THRESHOLD`). -/
noncomputable def EFFICIENCY_DECLINE_THRESHOLD : ℝ := -0.02

/-- Day indices `0, 1, ...` paired with the metric values, as built by
`dayIndices.map((x, i) => [x, metric[i]])`. -/
noncomputable def dayIndexed (ys : List ℝ) : List (ℝ × ℝ) :=
  (((List.range ys.length).map fun i => (i : ℝ)).zip ys)

/-- The source's `detectTrends`: regressions over the last `min 30 N` records,
significance tested on the efficiency slope only. -/
noncomputable def detectTrends (records : List SleepRecord) : TrendAnalysis :=
  let trendWindow := records.drop (records.length - min 30 records.length)
  let efficiency := trendWindow.map (·.sleep_efficiency)
  let deepSleep := trendWindow.map (·.deep_sleep_min)
  let remSleep := trendWindow.map (·.rem_sleep_min)
  let awakenings := trendWindow.map (·.awakenings)
  let dayIndices := (List.range trendWindow.length).map fun i => (i : ℝ)
  let effLine := linearRegression (dayIndices.zip efficiency)
  let deepLine := linearRegression (dayIndices.zip deepSleep)
  let remLine := linearRegression (dayIndices.zip remSleep)
  let awakeLine := linearRegression (dayIndices.zip awakenings)
  let effPValue := calculateTrendPValue dayIndices efficiency effLine.1
  { efficiency_slope := effLine.1
    deep_slope := deepLine.1
    rem_slope := remLine.1
    awakenings_slope := awakeLine.1
    efficiency_pvalue := effPValue
    has_significant_trend := effPValue < 0.05 ∧ effLine.1 < EFFICIENCY_DECLINE_THRESHOLD }

/-- The source's `computeSleepVariabilityIndex` over the entire record list. -/
noncomputable def computeSleepVariabilityIndex (records : List SleepRecord) : ℝ :=
  let efficiency := records.map (·.sleep_efficiency)
  let deepSleep := records.map (·.deep_sleep_min)
  let remSleep := records.map (·.rem_sleep_min)
  let awakenings := records.map (·.awakenings)
  let totalSleep := records.map (·.total_sleep_min)
  let cv_efficiency := std efficiency / (mean efficiency + epsilon)
  let cv_deep := std deepSleep / (mean deepSleep + epsilon)
  let cv_rem := std remSleep / (mean remSleep + epsilon)
  let cv_awakenings := std awakenings / (mean awakenings + epsilon)
  let rmssd_normalized := rmssdOf totalSleep / (mean totalSleep + epsilon)
  let svi_raw := 0.25 * cv_efficiency + 0.25 * cv_deep + 0.2 * cv_rem +
    0.15 * cv_awakenings + 0.15 * rmssd_normalized
  min 100 (svi_raw * 200)

/-- SHDI weight table (`SleepAnalyzer.WEIGHTS.fragmentation`). -/
noncomputable def WEIGHTS_fragmentation : ℝ := 0.30

/-- SHDI weight table (`SleepAnalyzer.WEIGHTS.deep_sleep`). -/
noncomputable def WEIGHTS_deep_sleep : ℝ := 0.25

/-- SHDI weight table (`SleepAnalyzer.WEIGHTS.rem_sleep`). -/
noncomputable def WEIGHTS_rem_sleep : ℝ := 0.20

/-- SHDI weight table (`SleepAnalyzer.WEIGHTS.efficiency`). -/
noncomputable def WEIGHTS_efficiency : ℝ := 0.15

/-- SHDI weight table (`SleepAnalyzer.WEIGHTS.variability`). -/
noncomputable def WEIGHTS_variability : ℝ := 0.10

/-- The type module's `determineSHDICategory`: fixed breakpoints 30 and 60. -/
noncomputable def determineSHDICategory (score : ℝ) : SHDICategory :=
  if score < 30 then .stable
  else if score < 60 then .moderate_drift
  else .significant_drift

/-- The source's `calculateSHDI`. -/
noncomputable def calculateSHDI (z_scores : ZScores) (trends : TrendAnalysis) (svi : ℝ)
    (nBaselineDays nRecentDays : ℕ) : SHDIScore :=
  let frag_component := max 0 z_scores.awakenings * 10
  let deep_component := max 0 (-z_scores.deep_sleep) * 10
  let rem_component := |z_scores.rem_sleep| * 10
  let eff_component := max 0 (-trends.efficiency_slope * 50)
  let var_component := svi / 10
  let shdi_raw := WEIGHTS_fragmentation * frag_component +
    WEIGHTS_deep_sleep * deep_component + WEIGHTS_rem_sleep * rem_component +
    WEIGHTS_efficiency * eff_component + WEIGHTS_variability * var_component
  let shdi_score := min 100 shdi_raw
  let baselineFactor := min 1 ((nBaselineDays : ℝ) / 30)
  let recentFactor := min 1 ((nRecentDays : ℝ) / 7)
  { score := shdi_score
    category := determineSHDICategory shdi_score
    confidence := min 1 (0.35 + 0.35 * baselineFactor + 0.3 * recentFactor) }

/-- Phenotype match scores of `classifyPhenotype`, one per candidate pattern. -/
noncomputable def phenotypeScore (z_scores : ZScores) (trends : TrendAnalysis)
    (svi : ℝ) : Pattern → ℝ
  | .fragmentation_dominant => max 0 z_scores.awakenings
  | .deep_sleep_reduction => max 0 (-z_scores.deep_sleep)
  | .rem_instability => |z_scores.rem_sleep| + svi / 50
  | .efficiency_instability => max 0 (-trends.efficiency_slope * 30) + svi / 50

/-- One step of the source's argmax reduction `(a, b) => scores[a] > scores[b] ? a : b`. -/
noncomputable def argStep (s : Pattern → ℝ) (a b : Pattern) : Pattern :=
  if s b < s a then a else b

/-- The score-table keys in enumeration order (`Object.keys(scores)`). -/
def phenotypeKeys : List Pattern :=
  [.fragmentation_dominant, .deep_sleep_reduction, .rem_instability, .efficiency_instability]

/-- The source's `keys.reduce((a, b) => scores[a] > scores[b] ? a : b)`, unrolled
over the four keys in enumeration order. -/
noncomputable def argmaxReduce (s : Pattern → ℝ) : Pattern :=
  argStep s (argStep s (argStep s .fragmentation_dominant .deep_sleep_reduction)
    .rem_instability) .efficiency_instability

/-- The descending-score order used by `[...keys].sort((a, b) => scores[b] - scores[a])`. -/
def scoreDesc (s : Pattern → ℝ) (a b : Pattern) : Prop := s b ≤ s a

noncomputable instance (s : Pattern → ℝ) : DecidableRel (scoreDesc s) :=
  fun a b => inferInstanceAs (Decidable (s b ≤ s a))

/-- Fixed pattern-to-domains lookup table of `classifyPhenotype`. -/
def phenotypeDomains : Pattern → List String
  | .fragmentation_dominant => ["cardiovascular", "metabolic"]
  | .deep_sleep_reduction => ["cardiometabolic", "cognitive"]
  | .rem_instability => ["cognitive", "neurological"]
  | .efficiency_instability => ["metabolic", "mental_health"]

/-- Fixed pattern-to-evidence lookup table of `classifyPhenotype`. -/
def phenotypeEvidence : Pattern → Evidence
  | .fragmentation_dominant => .strong
  | .deep_sleep_reduction => .strong
  | .rem_instability => .moderate
  | .efficiency_instability => .moderate

/-- The source's `classifyPhenotype`. -/
noncomputable def classifyPhenotype (z_scores : ZScores) (trends : TrendAnalysis)
    (svi : ℝ) : RiskPhenotype :=
  let s := phenotypeScore z_scores trends svi
  let primary_pattern := argmaxReduce s
  let sorted := List.insertionSort (scoreDesc s) phenotypeKeys
  let scorePrimary := s sorted.headI
  let scoreSecond := if 1 < sorted.length then s sorted.tail.headI else 0
  let separation := max 0 (scorePrimary - scoreSecond)
  let confidence := min 1 (max 0.2 (0.2 + 0.8 * min 1 (separation / 2)))
  { primary_pattern := primary_pattern
    confidence := confidence
    associated_domains := phenotypeDomains primary_pattern
    evidence_strength := phenotypeEvidence primary_pattern }

/-- Chronological order on records, as decided by the sort comparator
`(a, b) => a.date.getTime() - b.date.getTime()`. -/
def dateLe (a b : SleepRecord) : Prop := a.date ≤ b.date

instance : DecidableRel dateLe := fun a b => inferInstanceAs (Decidable (a.date ≤ b.date))

instance : IsTotal SleepRecord dateLe := ⟨fun a b => Int.le_total a.date b.date⟩

instance : IsTrans SleepRecord dateLe := ⟨fun _ _ _ hab hbc => le_trans hab hbc⟩

/-- The pipeline of `analyze` after the initial chronological sort. -/
noncomputable def analyzeSorted (sortedRecords : List SleepRecord) :
    Except String SleepAnalysisResultTS :=
  if sortedRecords.length < 14 then .error insufficientDataMsg
  else
    match computeBaselineStats sortedRecords with
    | .error e => .error e
    | .ok baseline =>
      let baselineWindowSize := min 30 sortedRecords.length
      let recentRecords := sortedRecords.drop (sortedRecords.length - 7)
      let z_scores := calculateZScores recentRecords baseline
      let trends := detectTrends sortedRecords
      let svi := computeSleepVariabilityIndex sortedRecords
      let shdi := calculateSHDI z_scores trends svi baselineWindowSize recentRecords.length
      let phenotype := classifyPhenotype z_scores trends svi
      .ok
        { days_analyzed := sortedRecords.length
          start_date := sortedRecords.headI.date
          end_date := ((sortedRecords.getLast?).getD default).date
          baseline := baseline
          z_scores := z_scores
          trends := trends
          svi := svi
          shdi := shdi
          phenotype := phenotype }

/-- The source's `analyze`: sort chronologically, then run the pipeline. -/
noncomputable def analyze (records : List SleepRecord) :
    Except String SleepAnalysisResultTS :=
  analyzeSorted (List.insertionSort dateLe records)

/-! ### Spec-side definitions and statement helpers -/

/-- The four z-scored metrics, for stating per-metric properties uniformly. -/
inductive Metric where
  | efficiency
  | deep_sleep
  | rem_sleep
  | awakenings
deriving DecidableEq

/-- The record field carrying a given metric. -/
def metricValue : Metric → SleepRecord → ℝ
  | .efficiency => (·.sleep_efficiency)
  | .deep_sleep => (·.deep_sleep_min)
  | .rem_sleep => (·.rem_sleep_min)
  | .awakenings => (·.awakenings)

/-- Projection of a `ZScores` value at a metric. -/
def ZScores.get : ZScores → Metric → ℝ
  | z, .efficiency => z.efficiency
  | z, .deep_sleep => z.deep_sleep
  | z, .rem_sleep => z.rem_sleep
  | z, .awakenings => z.awakenings

/-- Baseline mean of a metric. -/
def baselineMean : BaselineMetrics → Metric → ℝ
  | b, .efficiency => b.mean_efficiency
  | b, .deep_sleep => b.mean_deep
  | b, .rem_sleep => b.mean_rem
  | b, .awakenings => b.mean_awakenings

/-- Baseline standard deviation of a metric. -/
def baselineStd : BaselineMetrics → Metric → ℝ
  | b, .efficiency => b.std_efficiency
  | b, .deep_sleep => b.std_deep
  | b, .rem_sleep => b.std_rem
  | b, .awakenings => b.std_awakenings

/-- Spec-side first differences between consecutive entries, written with `zip`
(the spec's "first differences between consecutive nights ... in window order"). -/
noncomputable def specFirstDiffs (l : List ℝ) : List ℝ :=
  (l.tail.zip l).map fun p => p.1 - p.2

/-- Spec-side ordinary-least-squares slope in covariance-over-variance form:
`sum((xi - meanX) * (yi - meanY)) / sum((xi - meanX)^2)`. -/
noncomputable def olsSlope (data : List (ℝ × ℝ)) : ℝ :=
  ((data.map fun p =>
    (p.1 - mean (data.map Prod.fst)) * (p.2 - mean (data.map Prod.snd))).sum) /
    ((data.map fun p => (p.1 - mean (data.map Prod.fst)) ^ 2).sum)

/-- Position of a pattern in the enumeration order of the score table. -/
def patternIdx : Pattern → ℕ
  | .fragmentation_dominant => 0
  | .deep_sleep_reduction => 1
  | .rem_instability => 2
  | .efficiency_instability => 3

/-- The result record assembled by `analyzeSorted` when the guard passes. -/
noncomputable def analyzeResult (l : List SleepRecord) : SleepAnalysisResultTS :=
  let baseline := computeBaselineStatsCore l
  let recentRecords := l.drop (l.length - 7)
  let z_scores := calculateZScores recentRecords baseline
  let trends := detectTrends l
  let svi := computeSleepVariabilityIndex l
  { days_analyzed := l.length
    start_date := l.headI.date
    end_date := ((l.getLast?).getD default).date
    baseline := baseline
    z_scores := z_scores
    trends := trends
    svi := svi
    shdi := calculateSHDI z_scores trends svi (min 30 l.length) recentRecords.length
    phenotype := classifyPhenotype z_scores trends svi }

/-! ### Concrete inputs used by witnesses and counterexamples -/

/-- Fourteen identical nights on consecutive dates: the zero-variance scenario. -/
noncomputable def records14 : List SleepRecord :=
  [⟨0, 480, 90, 100, 110, 2⟩, ⟨1, 480, 90, 100, 110, 2⟩, ⟨2, 480, 90, 100, 110, 2⟩,
   ⟨3, 480, 90, 100, 110, 2⟩, ⟨4, 480, 90, 100, 110, 2⟩, ⟨5, 480, 90, 100, 110, 2⟩,
   ⟨6, 480, 90, 100, 110, 2⟩, ⟨7, 480, 90, 100, 110, 2⟩, ⟨8, 480, 90, 100, 110, 2⟩,
   ⟨9, 480, 90, 100, 110, 2⟩, ⟨10, 480, 90, 100, 110, 2⟩, ⟨11, 480, 90, 100, 110, 2⟩,
   ⟨12, 480, 90, 100, 110, 2⟩, ⟨13, 480, 90, 100, 110, 2⟩]

/-- `records14` with its first two records exchanged (a permutation with
pairwise-distinct dates). -/
noncomputable def records14Swapped : List SleepRecord :=
  [⟨1, 480, 90, 100, 110, 2⟩, ⟨0, 480, 90, 100, 110, 2⟩, ⟨2, 480, 90, 100, 110, 2⟩,
   ⟨3, 480, 90, 100, 110, 2⟩, ⟨4, 480, 90, 100, 110, 2⟩, ⟨5, 480, 90, 100, 110, 2⟩,
   ⟨6, 480, 90, 100, 110, 2⟩, ⟨7, 480, 90, 100, 110, 2⟩, ⟨8, 480, 90, 100, 110, 2⟩,
   ⟨9, 480, 90, 100, 110, 2⟩, ⟨10, 480, 90, 100, 110, 2⟩, ⟨11, 480, 90, 100, 110, 2⟩,
   ⟨12, 480, 90, 100, 110, 2⟩, ⟨13, 480, 90, 100, 110, 2⟩]

/-- Fourteen records with two different nights sharing date 6.  The list is
already in nondecreasing date order. -/
noncomputable def recordsDup : List SleepRecord :=
  [⟨0, 450, 85, 100, 110, 2⟩, ⟨1, 450, 85, 100, 110, 2⟩, ⟨2, 450, 85, 100, 110, 2⟩,
   ⟨3, 450, 85, 100, 110, 2⟩, ⟨4, 450, 85, 100, 110, 2⟩, ⟨5, 440, 85, 100, 110, 2⟩,
   ⟨6, 400, 85, 100, 110, 2⟩, ⟨6, 500, 85, 100, 110, 2⟩, ⟨7, 450, 85, 100, 110, 2⟩,
   ⟨8, 450, 85, 100, 110, 2⟩, ⟨9, 450, 85, 100, 110, 2⟩, ⟨10, 450, 85, 100, 110, 2⟩,
   ⟨11, 450, 85, 100, 110, 2⟩, ⟨12, 450, 85, 100, 110, 2⟩]

/-- `recordsDup` with the two date-6 records exchanged: a permutation of
`recordsDup`, also in nondecreasing date order. -/
noncomputable def recordsDupSwapped : List SleepRecord :=
  [⟨0, 450, 85, 100, 110, 2⟩, ⟨1, 450, 85, 100, 110, 2⟩, ⟨2, 450, 85, 100, 110, 2⟩,
   ⟨3, 450, 85, 100, 110, 2⟩, ⟨4, 450, 85, 100, 110, 2⟩, ⟨5, 440, 85, 100, 110, 2⟩,
   ⟨6, 500, 85, 100, 110, 2⟩, ⟨6, 400, 85, 100, 110, 2⟩, ⟨7, 450, 85, 100, 110, 2⟩,
   ⟨8, 450, 85, 100, 110, 2⟩, ⟨9, 450, 85, 100, 110, 2⟩, ⟨10, 450, 85, 100, 110, 2⟩,
   ⟨11, 450, 85, 100, 110, 2⟩, ⟨12, 450, 85, 100, 110, 2⟩]

/-- A single recent record used by the z-score witness. -/
noncomputable def recentOne : List SleepRecord := [⟨0, 480, 90, 100, 110, 2⟩]

/-- A concrete baseline used by the z-score witness. -/
noncomputable def baseOne : BaselineMetrics := ⟨480, 10, 85, 3, 100, 5, 110, 5, 2, 1, 0⟩

/-- All-zero z-scores, used by concrete instantiations. -/
noncomputable def zZero : ZScores := ⟨0, 0, 0, 0⟩

/-- A flat trend analysis, used by concrete instantiations. -/
noncomputable def trendsFlat : TrendAnalysis := ⟨0, 0, 0, 0, 1, False⟩

/-! ### Helper lemmas -/

lemma epsilon_pos : 0 < epsilon := by norm_num [epsilon]

lemma sem_pos (n : ℕ) (stdv meanv : ℝ) : 0 < sem n stdv meanv :=
  lt_of_lt_of_le epsilon_pos (le_trans (le_max_right _ _) (le_max_right _ _))

lemma analyzeSorted_eq_ok {l : List SleepRecord} (h : ¬ l.length < 14) :
    analyzeSorted l = .ok (analyzeResult l) := by
  rw [analyzeSorted, if_neg h, computeBaselineStats, if_neg h]
  rfl

/-! ### Claim theorems -/

/-- C1.  `analyze` fails with the insufficient-data error exactly when fewer
than 14 records are supplied (sorting does not change the length), and with at
least 14 records it returns a result instead of that error; in the `Except`
embedding the error branch returns immediately, before any statistics. -/
theorem analyze_min_records (records : List SleepRecord) :
    (analyze records = Except.error insufficientDataMsg ↔ records.length < 14) ∧
    (14 ≤ records.length → ∃ result, analyze records = Except.ok result) := by
  have hlen : (List.insertionSort dateLe records).length = records.length :=
    List.length_insertionSort dateLe records
  by_cases h : records.length < 14
  · constructor
    · rw [analyze, analyzeSorted, if_pos (by rw [hlen]; exact h)]
      simp [h]
    · intro h14
      omega
  · constructor
    · rw [analyze, analyzeSorted_eq_ok (by rw [hlen]; exact h)]
      simp [h]
    · intro _
      exact ⟨analyzeResult (List.insertionSort dateLe records),
        by rw [analyze, analyzeSorted_eq_ok (by rw [hlen]; exact h)]⟩

/-- Witness for C1 at concrete inputs: the empty history errors out, a
14-record history succeeds. -/
theorem analyze_min_records_witness :
    (analyze [] = Except.error insufficientDataMsg ↔ ([] : List SleepRecord).length < 14) ∧
    (∃ result, analyze records14 = Except.ok result) := by
  refine ⟨(analyze_min_records []).1, (analyze_min_records records14).2 ?_⟩
  simp [records14]

/-- C2.  For a non-empty recent window, each z-score is exactly
`(recent_mean - baseline_mean) / sem` with
`sem = max(baseline_std / sqrt(n), epsilon * (|baseline_mean| + 1), epsilon)`;
the `sem` denominator is strictly positive, so the z-score is strictly
positive when the recent mean exceeds the baseline mean and strictly negative
when it is below it. -/
theorem calculateZScores_spec (recent : List SleepRecord) (b : BaselineMetrics)
    (m : Metric) (h : recent ≠ []) :
    (calculateZScores recent b).get m =
      (mean (recent.map (metricValue m)) - baselineMean b m) /
        max (baselineStd b m / Real.sqrt (recent.length : ℝ))
          (max (epsilon * (|baselineMean b m| + 1)) epsilon) ∧
    0 < max (baselineStd b m / Real.sqrt (recent.length : ℝ))
          (max (epsilon * (|baselineMean b m| + 1)) epsilon) ∧
    (baselineMean b m < mean (recent.map (metricValue m)) →
      0 < (calculateZScores recent b).get m) ∧
    (mean (recent.map (metricValue m)) < baselineMean b m →
      (calculateZScores recent b).get m < 0) := by
  have hn : ¬ recent.length = 0 := by simpa using h
  have hpos : 0 < sem recent.length (baselineStd b m) (baselineMean b m) := sem_pos _ _ _
  have heq : (calculateZScores recent b).get m =
      (mean (recent.map (metricValue m)) - baselineMean b m) /
        sem recent.length (baselineStd b m) (baselineMean b m) := by
    cases m <;>
      simp [calculateZScores, hn, ZScores.get, baselineMean, baselineStd, metricValue]
  refine ⟨heq, hpos, fun hlt => ?_, fun hlt => ?_⟩
  · rw [heq]
    exact div_pos (sub_pos.2 hlt) hpos
  · rw [heq]
    exact div_neg_of_neg_of_pos (sub_neg.2 hlt) hpos

/-- Witness for C2 at a one-record recent window and a concrete baseline. -/
theorem calculateZScores_spec_witness :
    (calculateZScores recentOne baseOne).get .efficiency =
      (mean (recentOne.map (metricValue .efficiency)) - baselineMean baseOne .efficiency) /
        max (baselineStd baseOne .efficiency / Real.sqrt (recentOne.length : ℝ))
          (max (epsilon * (|baselineMean baseOne .efficiency| + 1)) epsilon) ∧
    0 < max (baselineStd baseOne .efficiency / Real.sqrt (recentOne.length : ℝ))
          (max (epsilon * (|baselineMean baseOne .efficiency| + 1)) epsilon) ∧
    (baselineMean baseOne .efficiency < mean (recentOne.map (metricValue .efficiency)) →
      0 < (calculateZScores recentOne baseOne).get .efficiency) ∧
    (mean (recentOne.map (metricValue .efficiency)) < baselineMean baseOne .efficiency →
      (calculateZScores recentOne baseOne).get .efficiency < 0) :=
  calculateZScores_spec recentOne baseOne .efficiency (by simp [recentOne])

lemma determineSHDICategory_iff (score : ℝ) :
    (determineSHDICategory score = .stable ↔ score < 30) ∧
    (determineSHDICategory score = .moderate_drift ↔ 30 ≤ score ∧ score < 60) ∧
    (determineSHDICategory score = .significant_drift ↔ 60 ≤ score) := by
  unfold determineSHDICategory
  split_ifs with h1 h2 <;> refine ⟨?_, ?_, ?_⟩ <;> simp <;>
    first
      | linarith
      | (intro hx; linarith)
      | exact ⟨by linarith, by linarith⟩

/-- C3.  The SHDI score is the weighted sum of the five deviation components
with the fixed weight table (which sums to exactly 1), clamped to `[0, 100]`;
the category follows the fixed breakpoints 30 and 60 (mutually exclusive and
exhaustive by the three iff clauses); and the confidence is
`min(1, 0.35 + 0.35 * min(1, nBaseline/30) + 0.30 * min(1, nRecent/7))`. -/
theorem calculateSHDI_spec (z : ZScores) (t : TrendAnalysis) (svi : ℝ)
    (nb nr : ℕ) (hsvi : 0 ≤ svi) :
    (calculateSHDI z t svi nb nr).score =
      min 100 (WEIGHTS_fragmentation * (max 0 z.awakenings * 10) +
        WEIGHTS_deep_sleep * (max 0 (-z.deep_sleep) * 10) +
        WEIGHTS_rem_sleep * (|z.rem_sleep| * 10) +
        WEIGHTS_efficiency * max 0 (-t.efficiency_slope * 50) +
        WEIGHTS_variability * (svi / 10)) ∧
    WEIGHTS_fragmentation + WEIGHTS_deep_sleep + WEIGHTS_rem_sleep +
      WEIGHTS_efficiency + WEIGHTS_variability = 1 ∧
    0 ≤ (calculateSHDI z t svi nb nr).score ∧
    (calculateSHDI z t svi nb nr).score ≤ 100 ∧
    ((calculateSHDI z t svi nb nr).category = .stable ↔
      (calculateSHDI z t svi nb nr).score < 30) ∧
    ((calculateSHDI z t svi nb nr).category = .moderate_drift ↔
      30 ≤ (calculateSHDI z t svi nb nr).score ∧ (calculateSHDI z t svi nb nr).score < 60) ∧
    ((calculateSHDI z t svi nb nr).category = .significant_drift ↔
      60 ≤ (calculateSHDI z t svi nb nr).score) ∧
    (calculateSHDI z t svi nb nr).confidence =
      min 1 (0.35 + 0.35 * min 1 ((nb : ℝ) / 30) + 0.30 * min 1 ((nr : ℝ) / 7)) := by
  have hraw : 0 ≤ WEIGHTS_fragmentation * (max 0 z.awakenings * 10) +
      WEIGHTS_deep_sleep * (max 0 (-z.deep_sleep) * 10) +
      WEIGHTS_rem_sleep * (|z.rem_sleep| * 10) +
      WEIGHTS_efficiency * max 0 (-t.efficiency_slope * 50) +
      WEIGHTS_variability * (svi / 10) := by
    have h1 : (0 : ℝ) ≤ max 0 z.awakenings * 10 :=
      mul_nonneg (le_max_left _ _) (by norm_num)
    have h2 : (0 : ℝ) ≤ max 0 (-z.deep_sleep) * 10 :=
      mul_nonneg (le_max_left _ _) (by norm_num)
    have h3 : (0 : ℝ) ≤ |z.rem_sleep| * 10 := mul_nonneg (abs_nonneg _) (by norm_num)
    have h4 : (0 : ℝ) ≤ max 0 (-t.efficiency_slope * 50) := le_max_left _ _
    have h5 : (0 : ℝ) ≤ svi / 10 := by positivity
    unfold WEIGHTS_fragmentation WEIGHTS_deep_sleep WEIGHTS_rem_sleep
      WEIGHTS_efficiency WEIGHTS_variability
    positivity
  have hcat := determineSHDICategory_iff ((calculateSHDI z t svi nb nr).score)
  refine ⟨rfl, by norm_num [WEIGHTS_fragmentation, WEIGHTS_deep_sleep, WEIGHTS_rem_sleep,
      WEIGHTS_efficiency, WEIGHTS_variability], ?_, ?_, ?_, ?_, ?_, ?_⟩
  · exact le_min (by norm_num) hraw
  · exact min_le_left _ _
  · exact hcat.1
  · exact hcat.2.1
  · exact hcat.2.2
  · norm_num [calculateSHDI]

/-- Witness for C3 at all-zero z-scores, a flat trend, zero SVI and full
windows. -/
theorem calculateSHDI_spec_witness :
    (calculateSHDI zZero trendsFlat 0 30 7).score =
      min 100 (WEIGHTS_fragmentation * (max 0 zZero.awakenings * 10) +
        WEIGHTS_deep_sleep * (max 0 (-zZero.deep_sleep) * 10) +
        WEIGHTS_rem_sleep * (|zZero.rem_sleep| * 10) +
        WEIGHTS_efficiency * max 0 (-trendsFlat.efficiency_slope * 50) +
        WEIGHTS_variability * ((0 : ℝ) / 10)) ∧
    WEIGHTS_fragmentation + WEIGHTS_deep_sleep + WEIGHTS_rem_sleep +
      WEIGHTS_efficiency + WEIGHTS_variability = 1 ∧
    0 ≤ (calculateSHDI zZero trendsFlat 0 30 7).score ∧
    (calculateSHDI zZero trendsFlat 0 30 7).score ≤ 100 ∧
    ((calculateSHDI zZero trendsFlat 0 30 7).category = .stable ↔
      (calculateSHDI zZero trendsFlat 0 30 7).score < 30) ∧
    ((calculateSHDI zZero trendsFlat 0 30 7).category = .moderate_drift ↔
      30 ≤ (calculateSHDI zZero trendsFlat 0 30 7).score ∧
        (calculateSHDI zZero trendsFlat 0 30 7).score < 60) ∧
    ((calculateSHDI zZero trendsFlat 0 30 7).category = .significant_drift ↔
      60 ≤ (calculateSHDI zZero trendsFlat 0 30 7).score) ∧
    (calculateSHDI zZero trendsFlat 0 30 7).confidence =
      min 1 (0.35 + 0.35 * min 1 ((30 : ℕ) / (30 : ℝ)) + 0.30 * min 1 ((7 : ℕ) / (7 : ℝ))) :=
  calculateSHDI_spec zZero trendsFlat 0 30 7 le_rfl

instance (s : Pattern → ℝ) : IsTotal Pattern (scoreDesc s) :=
  ⟨fun a b => le_total (s b) (s a)⟩

instance (s : Pattern → ℝ) : IsTrans Pattern (scoreDesc s) :=
  ⟨fun _ _ _ hab hbc => le_trans hbc hab⟩

lemma argStep_score (s : Pattern → ℝ) (a b : Pattern) :
    s (argStep s a b) = max (s a) (s b) := by
  unfold argStep
  split_ifs with h
  · exact (max_eq_left h.le).symm
  · exact (max_eq_right (not_lt.1 h)).symm

lemma argmaxReduce_score (s : Pattern → ℝ) :
    s (argmaxReduce s) =
      max (max (max (s .fragmentation_dominant) (s .deep_sleep_reduction))
        (s .rem_instability)) (s .efficiency_instability) := by
  unfold argmaxReduce
  rw [argStep_score s, argStep_score s, argStep_score s]

lemma sortKeys_destruct (s : Pattern → ℝ) :
    ∃ a b c d : Pattern,
      List.insertionSort (scoreDesc s) phenotypeKeys = [a, b, c, d] := by
  have h : (List.insertionSort (scoreDesc s) phenotypeKeys).length = 4 := by
    rw [List.length_insertionSort]
    rfl
  obtain ⟨a, t, ht⟩ : ∃ a t, List.insertionSort (scoreDesc s) phenotypeKeys = a :: t := by
    cases hc : List.insertionSort (scoreDesc s) phenotypeKeys with
    | nil => rw [hc] at h; simp at h
    | cons a t => exact ⟨a, t, rfl⟩
  have ht3 : t.length = 3 := by rw [ht] at h; simpa using h
  obtain ⟨b, c, d, rfl⟩ := List.length_eq_three.1 ht3
  exact ⟨a, b, c, d, ht⟩

/-- C4.  The returned primary pattern attains the maximum of the four match
scores; the associated domains and evidence strength follow the fixed lookup
table; and the confidence is
`min(1, max(0.2, 0.2 + 0.8 * min(1, separation / 2)))` where the separation is
the gap between the two largest scores of the descending sort, so the
confidence always lies in `[0.2, 1]`. -/
theorem classifyPhenotype_spec (z : ZScores) (t : TrendAnalysis) (svi : ℝ) :
    phenotypeScore z t svi (classifyPhenotype z t svi).primary_pattern =
      max (max (max (phenotypeScore z t svi .fragmentation_dominant)
        (phenotypeScore z t svi .deep_sleep_reduction))
        (phenotypeScore z t svi .rem_instability))
        (phenotypeScore z t svi .efficiency_instability) ∧
    ((classifyPhenotype z t svi).primary_pattern = .fragmentation_dominant →
      (classifyPhenotype z t svi).associated_domains = ["cardiovascular", "metabolic"] ∧
      (classifyPhenotype z t svi).evidence_strength = .strong) ∧
    ((classifyPhenotype z t svi).primary_pattern = .deep_sleep_reduction →
      (classifyPhenotype z t svi).associated_domains = ["cardiometabolic", "cognitive"] ∧
      (classifyPhenotype z t svi).evidence_strength = .strong) ∧
    ((classifyPhenotype z t svi).primary_pattern = .rem_instability →
      (classifyPhenotype z t svi).associated_domains = ["cognitive", "neurological"] ∧
      (classifyPhenotype z t svi).evidence_strength = .moderate) ∧
    ((classifyPhenotype z t svi).primary_pattern = .efficiency_instability →
      (classifyPhenotype z t svi).associated_domains = ["metabolic", "mental_health"] ∧
      (classifyPhenotype z t svi).evidence_strength = .moderate) ∧
    (classifyPhenotype z t svi).primary_pattern ∈ phenotypeKeys ∧
    (∃ sortedScores : List ℝ,
      sortedScores.Perm [phenotypeScore z t svi .fragmentation_dominant,
        phenotypeScore z t svi .deep_sleep_reduction,
        phenotypeScore z t svi .rem_instability,
        phenotypeScore z t svi .efficiency_instability] ∧
      sortedScores.Sorted (· ≥ ·) ∧
      (classifyPhenotype z t svi).confidence =
        min 1 (max 0.2 (0.2 + 0.8 * min 1
          (max 0 (sortedScores.headI - sortedScores.tail.headI) / 2)))) ∧
    0.2 ≤ (classifyPhenotype z t svi).confidence ∧
    (classifyPhenotype z t svi).confidence ≤ 1 := by
  have hp : (classifyPhenotype z t svi).primary_pattern =
      argmaxReduce (phenotypeScore z t svi) := rfl
  have hdom : (classifyPhenotype z t svi).associated_domains =
      phenotypeDomains ((classifyPhenotype z t svi).primary_pattern) := rfl
  have hev : (classifyPhenotype z t svi).evidence_strength =
      phenotypeEvidence ((classifyPhenotype z t svi).primary_pattern) := rfl
  obtain ⟨a, b, c, d, hsort⟩ := sortKeys_destruct (phenotypeScore z t svi)
  have hconfeq : (classifyPhenotype z t svi).confidence =
      min 1 (max 0.2 (0.2 + 0.8 * min 1
        (max 0 (phenotypeScore z t svi a - phenotypeScore z t svi b) / 2))) := by
    have h0 : (classifyPhenotype z t svi).confidence =
        min 1 (max 0.2 (0.2 + 0.8 * min 1 (max 0
          (phenotypeScore z t svi
              (List.insertionSort (scoreDesc (phenotypeScore z t svi)) phenotypeKeys).headI -
            (if 1 < (List.insertionSort (scoreDesc (phenotypeScore z t svi))
                phenotypeKeys).length then
              phenotypeScore z t svi
                (List.insertionSort (scoreDesc (phenotypeScore z t svi))
                  phenotypeKeys).tail.headI
            else 0)) / 2))) := rfl
    rw [h0, hsort]
    norm_num
  refine ⟨by rw [hp, argmaxReduce_score (phenotypeScore z t svi)], ?_, ?_, ?_, ?_,
    by cases hpp : (classifyPhenotype z t svi).primary_pattern <;> simp [phenotypeKeys],
    ?_, ?_, ?_⟩
  · intro h
    rw [hdom, hev, h]
    exact ⟨rfl, rfl⟩
  · intro h
    rw [hdom, hev, h]
    exact ⟨rfl, rfl⟩
  · intro h
    rw [hdom, hev, h]
    exact ⟨rfl, rfl⟩
  · intro h
    rw [hdom, hev, h]
    exact ⟨rfl, rfl⟩
  · refine ⟨(List.insertionSort (scoreDesc (phenotypeScore z t svi)) phenotypeKeys).map
      (phenotypeScore z t svi), ?_, ?_, ?_⟩
    · exact (List.perm_insertionSort _ _).map _
    · have hs := List.sorted_insertionSort (scoreDesc (phenotypeScore z t svi)) phenotypeKeys
      exact List.pairwise_map.2 hs
    · rw [hconfeq, hsort]
      rfl
  · rw [hconfeq]
    exact le_min (by norm_num) (le_max_left _ _)
  · rw [hconfeq]
    exact min_le_left _ _

/-- Witness for C4 at all-zero z-scores, a flat trend and zero SVI
(discharging the conditional clauses of the table lookup). -/
theorem classifyPhenotype_spec_witness :
    phenotypeScore zZero trendsFlat 0 (classifyPhenotype zZero trendsFlat 0).primary_pattern =
      max (max (max (phenotypeScore zZero trendsFlat 0 .fragmentation_dominant)
        (phenotypeScore zZero trendsFlat 0 .deep_sleep_reduction))
        (phenotypeScore zZero trendsFlat 0 .rem_instability))
        (phenotypeScore zZero trendsFlat 0 .efficiency_instability) ∧
    ((classifyPhenotype zZero trendsFlat 0).primary_pattern = .fragmentation_dominant →
      (classifyPhenotype zZero trendsFlat 0).associated_domains = ["cardiovascular", "metabolic"] ∧
      (classifyPhenotype zZero trendsFlat 0).evidence_strength = .strong) ∧
    ((classifyPhenotype zZero trendsFlat 0).primary_pattern = .deep_sleep_reduction →
      (classifyPhenotype zZero trendsFlat 0).associated_domains = ["cardiometabolic", "cognitive"] ∧
      (classifyPhenotype zZero trendsFlat 0).evidence_strength = .strong) ∧
    ((classifyPhenotype zZero trendsFlat 0).primary_pattern = .rem_instability →
      (classifyPhenotype zZero trendsFlat 0).associated_domains = ["cognitive", "neurological"] ∧
      (classifyPhenotype zZero trendsFlat 0).evidence_strength = .moderate) ∧
    ((classifyPhenotype zZero trendsFlat 0).primary_pattern = .efficiency_instability →
      (classifyPhenotype zZero trendsFlat 0).associated_domains = ["metabolic", "mental_health"] ∧
      (classifyPhenotype zZero trendsFlat 0).evidence_strength = .moderate) ∧
    (classifyPhenotype zZero trendsFlat 0).primary_pattern ∈ phenotypeKeys ∧
    (∃ sortedScores : List ℝ,
      sortedScores.Perm [phenotypeScore zZero trendsFlat 0 .fragmentation_dominant,
        phenotypeScore zZero trendsFlat 0 .deep_sleep_reduction,
        phenotypeScore zZero trendsFlat 0 .rem_instability,
        phenotypeScore zZero trendsFlat 0 .efficiency_instability] ∧
      sortedScores.Sorted (· ≥ ·) ∧
      (classifyPhenotype zZero trendsFlat 0).confidence =
        min 1 (max 0.2 (0.2 + 0.8 * min 1
          (max 0 (sortedScores.headI - sortedScores.tail.headI) / 2)))) ∧
    0.2 ≤ (classifyPhenotype zZero trendsFlat 0).confidence ∧
    (classifyPhenotype zZero trendsFlat 0).confidence ≤ 1 :=
  classifyPhenotype_spec zZero trendsFlat 0

lemma classifyPhenotype_allEqual {z : ZScores} {t : TrendAnalysis} {svi : ℝ}
    (hall : ∀ k1 k2 : Pattern, phenotypeScore z t svi k1 = phenotypeScore z t svi k2) :
    (classifyPhenotype z t svi).primary_pattern = .efficiency_instability ∧
    (classifyPhenotype z t svi).confidence = 0.2 := by
  have hp : (classifyPhenotype z t svi).primary_pattern =
      argmaxReduce (phenotypeScore z t svi) := rfl
  obtain ⟨a, b, c, d, hsort⟩ := sortKeys_destruct (phenotypeScore z t svi)
  have hconfeq : (classifyPhenotype z t svi).confidence =
      min 1 (max 0.2 (0.2 + 0.8 * min 1
        (max 0 (phenotypeScore z t svi a - phenotypeScore z t svi b) / 2))) := by
    have h0 : (classifyPhenotype z t svi).confidence =
        min 1 (max 0.2 (0.2 + 0.8 * min 1 (max 0
          (phenotypeScore z t svi
              (List.insertionSort (scoreDesc (phenotypeScore z t svi)) phenotypeKeys).headI -
            (if 1 < (List.insertionSort (scoreDesc (phenotypeScore z t svi))
                phenotypeKeys).length then
              phenotypeScore z t svi
                (List.insertionSort (scoreDesc (phenotypeScore z t svi))
                  phenotypeKeys).tail.headI
            else 0)) / 2))) := rfl
    rw [h0, hsort]
    norm_num
  constructor
  · rw [hp]
    have e1 := hall Pattern.fragmentation_dominant Pattern.deep_sleep_reduction
    have e2 := hall Pattern.deep_sleep_reduction Pattern.rem_instability
    have e3 := hall Pattern.rem_instability Pattern.efficiency_instability
    simp [argmaxReduce, argStep, e1, e2, e3, lt_irrefl]
  · rw [hconfeq, hall a b]
    norm_num

/-- C10.  The argmax reduction breaks ties toward the pattern that comes later
in the enumeration order: the primary pattern attains the maximal score, any
pattern attaining that maximum has enumeration index at most the primary one,
and in a four-way tie the primary pattern is `efficiency_instability` with the
floor confidence `0.2`. -/
theorem classifyPhenotype_tiebreak (z : ZScores) (t : TrendAnalysis) (svi : ℝ) :
    phenotypeScore z t svi (classifyPhenotype z t svi).primary_pattern =
      max (max (max (phenotypeScore z t svi .fragmentation_dominant)
        (phenotypeScore z t svi .deep_sleep_reduction))
        (phenotypeScore z t svi .rem_instability))
        (phenotypeScore z t svi .efficiency_instability) ∧
    (∀ k : Pattern,
      phenotypeScore z t svi k =
        phenotypeScore z t svi (classifyPhenotype z t svi).primary_pattern →
      patternIdx k ≤ patternIdx (classifyPhenotype z t svi).primary_pattern) ∧
    ((∀ k1 k2 : Pattern, phenotypeScore z t svi k1 = phenotypeScore z t svi k2) →
      (classifyPhenotype z t svi).primary_pattern = .efficiency_instability ∧
      (classifyPhenotype z t svi).confidence = 0.2) := by
  have hp : (classifyPhenotype z t svi).primary_pattern =
      argmaxReduce (phenotypeScore z t svi) := rfl
  refine ⟨by rw [hp, argmaxReduce_score (phenotypeScore z t svi)], ?_, ?_⟩
  · rw [hp]
    unfold argmaxReduce argStep
    split_ifs with h1 h2 h3 <;> intro k hk <;> cases k <;>
      simp only [patternIdx] <;> first | omega | (exfalso; linarith)
  · exact fun hall => classifyPhenotype_allEqual hall

/-- Witness for C10 in the all-tied case: with all-zero z-scores, a flat trend
and zero SVI, all four scores are equal, the primary pattern is
`efficiency_instability` and the confidence is exactly `0.2`. -/
theorem classifyPhenotype_tiebreak_witness :
    (classifyPhenotype zZero trendsFlat 0).primary_pattern = .efficiency_instability ∧
    (classifyPhenotype zZero trendsFlat 0).confidence = 0.2 :=
  (classifyPhenotype_tiebreak zZero trendsFlat 0).2.2 (by
    intro k1 k2
    cases k1 <;> cases k2 <;>
      norm_num [phenotypeScore, zZero, trendsFlat])

lemma sum_map_sub_mul (data : List (ℝ × ℝ)) (c d : ℝ) :
    (data.map fun p => (p.1 - c) * (p.2 - d)).sum =
      (data.map fun p => p.1 * p.2).sum - d * (data.map Prod.fst).sum -
        c * (data.map Prod.snd).sum + (data.length : ℝ) * (c * d) := by
  induction data with
  | nil => simp
  | cons p t ih =>
    simp only [List.map_cons, List.sum_cons, List.length_cons, ih]
    push_cast
    ring

lemma sum_map_sub_sq (data : List (ℝ × ℝ)) (c : ℝ) :
    (data.map fun p => (p.1 - c) ^ 2).sum =
      (data.map fun p => p.1 * p.1).sum - 2 * c * (data.map Prod.fst).sum +
        (data.length : ℝ) * c ^ 2 := by
  induction data with
  | nil => simp
  | cons p t ih =>
    simp only [List.map_cons, List.sum_cons, List.length_cons, ih]
    push_cast
    ring

lemma linearRegression_slope_eq_ols (data : List (ℝ × ℝ)) :
    (linearRegression data).1 = olsSlope data := by
  rcases data with _ | ⟨p, t⟩
  · simp [linearRegression, olsSlope]
  rcases t with _ | ⟨q, t2⟩
  · simp [linearRegression, olsSlope, mean]
  · have hlen : ¬ (p :: q :: t2).length = 1 := by simp
    have hn : ((p :: q :: t2).length : ℝ) ≠ 0 := by
      exact_mod_cast (by simp : (p :: q :: t2).length ≠ 0)
    rw [olsSlope, sum_map_sub_mul, sum_map_sub_sq]
    simp only [linearRegression, if_neg hlen]
    rw [mean, mean, List.length_map, List.length_map]
    have hnum :
        (((p :: q :: t2).map fun r => r.1 * r.2).sum -
            ((p :: q :: t2).map Prod.snd).sum / ((p :: q :: t2).length : ℝ) *
              ((p :: q :: t2).map Prod.fst).sum -
            ((p :: q :: t2).map Prod.fst).sum / ((p :: q :: t2).length : ℝ) *
              ((p :: q :: t2).map Prod.snd).sum +
            ((p :: q :: t2).length : ℝ) *
              (((p :: q :: t2).map Prod.fst).sum / ((p :: q :: t2).length : ℝ) *
                (((p :: q :: t2).map Prod.snd).sum / ((p :: q :: t2).length : ℝ)))) =
          (((p :: q :: t2).length : ℝ) * ((p :: q :: t2).map fun r => r.1 * r.2).sum -
            ((p :: q :: t2).map Prod.fst).sum * ((p :: q :: t2).map Prod.snd).sum) /
            ((p :: q :: t2).length : ℝ) := by
      field_simp
      ring
    have hden :
        (((p :: q :: t2).map fun r => r.1 * r.1).sum -
            2 * (((p :: q :: t2).map Prod.fst).sum / ((p :: q :: t2).length : ℝ)) *
              ((p :: q :: t2).map Prod.fst).sum +
            ((p :: q :: t2).length : ℝ) *
              (((p :: q :: t2).map Prod.fst).sum / ((p :: q :: t2).length : ℝ)) ^ 2) =
          (((p :: q :: t2).length : ℝ) * ((p :: q :: t2).map fun r => r.1 * r.1).sum -
            ((p :: q :: t2).map Prod.fst).sum * ((p :: q :: t2).map Prod.fst).sum) /
            ((p :: q :: t2).length : ℝ) := by
      field_simp
      ring
    rw [hnum, hden, div_div_div_cancel_right₀ hn]

/-- C7.  Trend detection fits ordinary least squares of each metric against the
0-based day index over the last `min 30 N` records (slope in
covariance-over-variance form); `has_significant_trend` holds exactly when the
efficiency p-value is below `0.05` and the efficiency slope is below `-0.02`;
and with fewer than 3 data points the p-value is defined to be `1`. -/
theorem detectTrends_spec (records : List SleepRecord) :
    (detectTrends records).efficiency_slope =
      olsSlope ((((List.range (records.drop
        (records.length - min 30 records.length)).length).map fun i => (i : ℝ))).zip
        ((records.drop (records.length - min 30 records.length)).map (·.sleep_efficiency))) ∧
    (detectTrends records).deep_slope =
      olsSlope ((((List.range (records.drop
        (records.length - min 30 records.length)).length).map fun i => (i : ℝ))).zip
        ((records.drop (records.length - min 30 records.length)).map (·.deep_sleep_min))) ∧
    (detectTrends records).rem_slope =
      olsSlope ((((List.range (records.drop
        (records.length - min 30 records.length)).length).map fun i => (i : ℝ))).zip
        ((records.drop (records.length - min 30 records.length)).map (·.rem_sleep_min))) ∧
    (detectTrends records).awakenings_slope =
      olsSlope ((((List.range (records.drop
        (records.length - min 30 records.length)).length).map fun i => (i : ℝ))).zip
        ((records.drop (records.length - min 30 records.length)).map (·.awakenings))) ∧
    ((detectTrends records).has_significant_trend ↔
      (detectTrends records).efficiency_pvalue < 0.05 ∧
        (detectTrends records).efficiency_slope < -0.02) ∧
    (∀ (x y : List ℝ) (slope : ℝ), x.length < 3 → calculateTrendPValue x y slope = 1) := by
  refine ⟨?_, ?_, ?_, ?_, ?_, ?_⟩
  · exact linearRegression_slope_eq_ols _
  · exact linearRegression_slope_eq_ols _
  · exact linearRegression_slope_eq_ols _
  · exact linearRegression_slope_eq_ols _
  · show ((detectTrends records).efficiency_pvalue < 0.05 ∧
      (detectTrends records).efficiency_slope < EFFICIENCY_DECLINE_THRESHOLD) ↔ _
    rw [EFFICIENCY_DECLINE_THRESHOLD]
  · intro x y slope h
    rw [calculateTrendPValue, if_pos h]

/-- Witness for C7: the fewer-than-3-points clause at empty inputs. -/
theorem detectTrends_spec_witness :
    calculateTrendPValue [] [] 0 = 1 :=
  (detectTrends_spec []).2.2.2.2.2 [] [] 0 (by simp)

lemma succDiffs_eq_specFirstDiffs (l : List ℝ) : succDiffs l = specFirstDiffs l := by
  induction l with
  | nil => simp [succDiffs, specFirstDiffs]
  | cons a t ih =>
    cases t with
    | nil => simp [succDiffs, specFirstDiffs]
    | cons b t2 =>
      simp only [succDiffs, specFirstDiffs, List.tail_cons, List.zip_cons_cons,
        List.map_cons] at ih ⊢
      rw [ih]

/-- C8.  With at least 14 chronologically sorted records,
`computeBaselineStats` succeeds; its window is a suffix of the input of length
`min 30 N`; every per-metric mean is the arithmetic mean and every per-metric
standard deviation the population standard deviation (dividing by the window
size `N`, not `N - 1`) over that window; and the RMSSD is the square root of
the average of the squared first differences of consecutive nights' total
sleep, in window order (total sleep is the only metric with an RMSSD field). -/
theorem computeBaselineStats_spec (records : List SleepRecord) (h : 14 ≤ records.length) :
    ∃ b, computeBaselineStats records = .ok b ∧
      (∃ pre, records = pre ++ baselineWindow records) ∧
      (baselineWindow records).length = min 30 records.length ∧
      (∀ m : Metric,
        baselineMean b m = ((baselineWindow records).map (metricValue m)).sum /
          ((((baselineWindow records).map (metricValue m)).length : ℕ) : ℝ) ∧
        baselineStd b m = Real.sqrt
          (((((baselineWindow records).map (metricValue m)).map fun v =>
            (v - ((baselineWindow records).map (metricValue m)).sum /
              ((((baselineWindow records).map (metricValue m)).length : ℕ) : ℝ)) ^ 2).sum) /
            ((((baselineWindow records).map (metricValue m)).length : ℕ) : ℝ))) ∧
      b.mean_total_sleep = ((baselineWindow records).map (·.total_sleep_min)).sum /
        ((((baselineWindow records).map (·.total_sleep_min)).length : ℕ) : ℝ) ∧
      b.std_total_sleep = Real.sqrt
        (((((baselineWindow records).map (·.total_sleep_min)).map fun v =>
          (v - ((baselineWindow records).map (·.total_sleep_min)).sum /
            ((((baselineWindow records).map (·.total_sleep_min)).length : ℕ) : ℝ)) ^ 2).sum) /
          ((((baselineWindow records).map (·.total_sleep_min)).length : ℕ) : ℝ)) ∧
      b.rmssd = Real.sqrt
        ((((specFirstDiffs ((baselineWindow records).map (·.total_sleep_min))).map
          fun d => d * d).sum) /
          (((specFirstDiffs ((baselineWindow records).map (·.total_sleep_min))).length : ℕ) : ℝ)) := by
  have hn : ¬ records.length < 14 := by omega
  refine ⟨computeBaselineStatsCore records, by rw [computeBaselineStats, if_neg hn],
    ⟨records.take (records.length - min 30 records.length),
      (List.take_append_drop _ _).symm⟩, ?_, ?_, rfl, rfl, ?_⟩
  · rw [baselineWindow, List.length_drop]
    omega
  · intro m
    cases m <;> exact ⟨rfl, rfl⟩
  · show rmssdOf ((baselineWindow records).map (·.total_sleep_min)) = _
    rw [rmssdOf, succDiffs_eq_specFirstDiffs]

/-- Witness for C8 at the concrete 14-record history. -/
theorem computeBaselineStats_spec_witness :
    ∃ b, computeBaselineStats records14 = .ok b ∧
      (∃ pre, records14 = pre ++ baselineWindow records14) ∧
      (baselineWindow records14).length = min 30 records14.length ∧
      (∀ m : Metric,
        baselineMean b m = ((baselineWindow records14).map (metricValue m)).sum /
          ((((baselineWindow records14).map (metricValue m)).length : ℕ) : ℝ) ∧
        baselineStd b m = Real.sqrt
          (((((baselineWindow records14).map (metricValue m)).map fun v =>
            (v - ((baselineWindow records14).map (metricValue m)).sum /
              ((((baselineWindow records14).map (metricValue m)).length : ℕ) : ℝ)) ^ 2).sum) /
            ((((baselineWindow records14).map (metricValue m)).length : ℕ) : ℝ))) ∧
      b.mean_total_sleep = ((baselineWindow records14).map (·.total_sleep_min)).sum /
        ((((baselineWindow records14).map (·.total_sleep_min)).length : ℕ) : ℝ) ∧
      b.std_total_sleep = Real.sqrt
        (((((baselineWindow records14).map (·.total_sleep_min)).map fun v =>
          (v - ((baselineWindow records14).map (·.total_sleep_min)).sum /
            ((((baselineWindow records14).map (·.total_sleep_min)).length : ℕ) : ℝ)) ^ 2).sum) /
          ((((baselineWindow records14).map (·.total_sleep_min)).length : ℕ) : ℝ)) ∧
      b.rmssd = Real.sqrt
        ((((specFirstDiffs ((baselineWindow records14).map (·.total_sleep_min))).map
          fun d => d * d).sum) /
          (((specFirstDiffs ((baselineWindow records14).map (·.total_sleep_min))).length : ℕ) : ℝ)) :=
  computeBaselineStats_spec records14 (by simp [records14])

lemma mean_nonneg {l : List ℝ} (h : ∀ x ∈ l, 0 ≤ x) : 0 ≤ mean l :=
  div_nonneg (List.sum_nonneg h) (Nat.cast_nonneg _)

/-- C9.  The Sleep Variability Index is computed over the entire supplied
history (inside `analyze`, over the full sorted record list): it is the
weighted sum of the four coefficients of variation (population std over
epsilon-floored mean) and the mean-normalized RMSSD of total sleep, with the
fixed weights, scaled by 200 and clamped to `[0, 100]` (for nonnegative
metric values the raw sum is nonnegative, so the clamp at 0 is the identity). -/
theorem computeSleepVariabilityIndex_spec (records : List SleepRecord)
    (hval : ∀ r ∈ records, 0 ≤ r.sleep_efficiency ∧ 0 ≤ r.deep_sleep_min ∧
      0 ≤ r.rem_sleep_min ∧ 0 ≤ r.awakenings ∧ 0 ≤ r.total_sleep_min) :
    computeSleepVariabilityIndex records =
      min 100 (max 0 ((0.25 * (std (records.map (·.sleep_efficiency)) /
          (mean (records.map (·.sleep_efficiency)) + epsilon)) +
        0.25 * (std (records.map (·.deep_sleep_min)) /
          (mean (records.map (·.deep_sleep_min)) + epsilon)) +
        0.2 * (std (records.map (·.rem_sleep_min)) /
          (mean (records.map (·.rem_sleep_min)) + epsilon)) +
        0.15 * (std (records.map (·.awakenings)) /
          (mean (records.map (·.awakenings)) + epsilon)) +
        0.15 * (rmssdOf (records.map (·.total_sleep_min)) /
          (mean (records.map (·.total_sleep_min)) + epsilon))) * 200)) ∧
    0 ≤ computeSleepVariabilityIndex records ∧
    computeSleepVariabilityIndex records ≤ 100 ∧
    (∀ result, analyze records = .ok result →
      result.svi = computeSleepVariabilityIndex (List.insertionSort dateLe records)) := by
  have hcv : ∀ (f : SleepRecord → ℝ), (∀ r ∈ records, 0 ≤ f r) →
      0 ≤ std (records.map f) / (mean (records.map f) + epsilon) := by
    intro f hf
    refine div_nonneg (Real.sqrt_nonneg _) (le_of_lt (add_pos_of_nonneg_of_pos ?_ epsilon_pos))
    refine mean_nonneg fun x hx => ?_
    obtain ⟨r, hr, rfl⟩ := List.mem_map.1 hx
    exact hf r hr
  have hrm : 0 ≤ rmssdOf (records.map (·.total_sleep_min)) /
      (mean (records.map (·.total_sleep_min)) + epsilon) := by
    refine div_nonneg (Real.sqrt_nonneg _) (le_of_lt (add_pos_of_nonneg_of_pos ?_ epsilon_pos))
    refine mean_nonneg fun x hx => ?_
    obtain ⟨r, hr, rfl⟩ := List.mem_map.1 hx
    exact (hval r hr).2.2.2.2
  have hraw : 0 ≤ (0.25 * (std (records.map (·.sleep_efficiency)) /
        (mean (records.map (·.sleep_efficiency)) + epsilon)) +
      0.25 * (std (records.map (·.deep_sleep_min)) /
        (mean (records.map (·.deep_sleep_min)) + epsilon)) +
      0.2 * (std (records.map (·.rem_sleep_min)) /
        (mean (records.map (·.rem_sleep_min)) + epsilon)) +
      0.15 * (std (records.map (·.awakenings)) /
        (mean (records.map (·.awakenings)) + epsilon)) +
      0.15 * (rmssdOf (records.map (·.total_sleep_min)) /
        (mean (records.map (·.total_sleep_min)) + epsilon))) * 200 := by
    have h1 := hcv (·.sleep_efficiency) fun r hr => (hval r hr).1
    have h2 := hcv (·.deep_sleep_min) fun r hr => (hval r hr).2.1
    have h3 := hcv (·.rem_sleep_min) fun r hr => (hval r hr).2.2.1
    have h4 := hcv (·.awakenings) fun r hr => (hval r hr).2.2.2.1
    positivity
  refine ⟨by rw [max_eq_right hraw]; rfl, le_min (by norm_num) hraw, min_le_left _ _, ?_⟩
  intro result hres
  by_cases hlt : (List.insertionSort dateLe records).length < 14
  · rw [analyze, analyzeSorted, if_pos hlt] at hres
    exact absurd hres (by simp)
  · rw [analyze, analyzeSorted_eq_ok hlt] at hres
    obtain rfl : analyzeResult (List.insertionSort dateLe records) = result := by
      injection hres
    rfl

/-- Witness for C9 at the concrete 14-record history. -/
theorem computeSleepVariabilityIndex_spec_witness :
    computeSleepVariabilityIndex records14 =
      min 100 (max 0 ((0.25 * (std (records14.map (·.sleep_efficiency)) /
          (mean (records14.map (·.sleep_efficiency)) + epsilon)) +
        0.25 * (std (records14.map (·.deep_sleep_min)) /
          (mean (records14.map (·.deep_sleep_min)) + epsilon)) +
        0.2 * (std (records14.map (·.rem_sleep_min)) /
          (mean (records14.map (·.rem_sleep_min)) + epsilon)) +
        0.15 * (std (records14.map (·.awakenings)) /
          (mean (records14.map (·.awakenings)) + epsilon)) +
        0.15 * (rmssdOf (records14.map (·.total_sleep_min)) /
          (mean (records14.map (·.total_sleep_min)) + epsilon))) * 200)) ∧
    0 ≤ computeSleepVariabilityIndex records14 ∧
    computeSleepVariabilityIndex records14 ≤ 100 ∧
    (∀ result, analyze records14 = .ok result →
      result.svi = computeSleepVariabilityIndex (List.insertionSort dateLe records14)) :=
  computeSleepVariabilityIndex_spec records14 (by
    intro r hr
    fin_cases hr <;> norm_num)

/-- C6.  At 14 identical records (zero variance in every metric) `analyze`
completes and returns a result whose z-scores are all exactly 0 (the epsilon
floor prevents 0/0 there) and whose confidences take their documented
sample-size values (SHDI confidence `0.35 + 0.35*(14/30) + 0.30*1 = 61/75`,
phenotype confidence exactly the floor `0.2`).  However, the efficiency trend
fit has slope 0 and `seSlope` — the denominator of the t-statistic inside
`calculateTrendPValue` — is also 0 at these inputs, so the source computes
`t = |0 / 0|`, which in JavaScript is `NaN` and propagates to the
`efficiency_pvalue` field; the claim that every numeric field, including the
efficiency p-value, is well-defined therefore fails on the code. -/
theorem analyze_zero_variance :
    (∃ result, analyze records14 = Except.ok result ∧ result.z_scores = ⟨0, 0, 0, 0⟩ ∧
      result.shdi.confidence = 61 / 75 ∧ result.phenotype.confidence = 0.2) ∧
    (detectTrends records14).efficiency_slope = 0 ∧
    seSlope ((List.range records14.length).map fun i => (i : ℝ))
      (records14.map (·.sleep_efficiency)) (detectTrends records14).efficiency_slope = 0 := by
  have hsortedRec : List.Sorted dateLe records14 := by
    norm_num [records14, List.sorted_cons, dateLe]
  have hstep : analyze records14 = .ok (analyzeResult records14) := by
    rw [analyze, List.Sorted.insertionSort_eq hsortedRec,
      analyzeSorted_eq_ok (by norm_num [records14])]
  have hcore : computeBaselineStatsCore records14 = ⟨480, 0, 90, 0, 100, 0, 110, 0, 2, 0, 0⟩ := by
    rw [computeBaselineStatsCore, show baselineWindow records14 = records14 by
      rw [baselineWindow]; norm_num [records14]]
    norm_num [records14, mean, std, rmssdOf, succDiffs, Real.sqrt_zero]
  have hz0 : calculateZScores (records14.drop (records14.length - 7))
      (computeBaselineStatsCore records14) = ⟨0, 0, 0, 0⟩ := by
    rw [hcore]
    norm_num [records14, calculateZScores, mean, ZScores.mk.injEq]
  have hsvi : computeSleepVariabilityIndex records14 = 0 := by
    rw [computeSleepVariabilityIndex]
    norm_num [records14, mean, std, rmssdOf, succDiffs, Real.sqrt_zero]
  have hw : records14.drop (records14.length - min 30 records14.length) = records14 := by
    norm_num [records14]
  have hslope : (detectTrends records14).efficiency_slope = 0 := by
    have hproj : (detectTrends records14).efficiency_slope =
        (linearRegression (((List.range records14.length).map fun i => (i : ℝ)).zip
          (records14.map (·.sleep_efficiency)))).1 := by
      simp only [detectTrends, hw]
    rw [hproj]
    norm_num [records14, List.range_succ, linearRegression]
  have hscore : ∀ k : Pattern,
      phenotypeScore (calculateZScores (records14.drop (records14.length - 7))
        (computeBaselineStatsCore records14)) (detectTrends records14)
        (computeSleepVariabilityIndex records14) k = 0 := by
    intro k
    cases k
    · rw [phenotypeScore, hz0]
      norm_num
    · rw [phenotypeScore, hz0]
      norm_num
    · rw [phenotypeScore, hz0, hsvi]
      norm_num
    · rw [phenotypeScore, hslope, hsvi]
      norm_num
  refine ⟨⟨analyzeResult records14, hstep, ?_, ?_, ?_⟩, hslope, ?_⟩
  · show calculateZScores (records14.drop (records14.length - 7))
      (computeBaselineStatsCore records14) = ⟨0, 0, 0, 0⟩
    exact hz0
  · show (calculateSHDI (calculateZScores (records14.drop (records14.length - 7))
      (computeBaselineStatsCore records14)) (detectTrends records14)
      (computeSleepVariabilityIndex records14) (min 30 records14.length)
      ((records14.drop (records14.length - 7)).length)).confidence = 61 / 75
    rw [calculateSHDI]
    norm_num [records14]
  · show (classifyPhenotype (calculateZScores (records14.drop (records14.length - 7))
      (computeBaselineStatsCore records14)) (detectTrends records14)
      (computeSleepVariabilityIndex records14)).confidence = 0.2
    exact (classifyPhenotype_allEqual fun k1 k2 => by rw [hscore k1, hscore k2]).2
  · rw [hslope, seSlope]
    norm_num [records14, List.range_succ, regressionResiduals, mean, Real.sqrt_zero]

instance : IsAntisymm SleepRecord (fun a b => a.date < b.date) :=
  ⟨fun _ _ h1 h2 => absurd (h1.trans h2) (lt_irrefl _)⟩

lemma insertionSort_eq_of_perm_of_nodup_dates {l l2 : List SleepRecord}
    (hp : l.Perm l2) (hd : (l.map SleepRecord.date).Nodup) :
    List.insertionSort dateLe l = List.insertionSort dateLe l2 := by
  have hperm : (List.insertionSort dateLe l).Perm (List.insertionSort dateLe l2) :=
    (List.perm_insertionSort _ l).trans (hp.trans (List.perm_insertionSort _ l2).symm)
  have key : ∀ m : List SleepRecord, (m.map SleepRecord.date).Nodup →
      (List.insertionSort dateLe m).Sorted (fun a b => a.date < b.date) := by
    intro m hm
    have hs : (List.insertionSort dateLe m).Sorted dateLe := List.sorted_insertionSort _ m
    have hnd : ((List.insertionSort dateLe m).map SleepRecord.date).Nodup :=
      (((List.perm_insertionSort dateLe m).map SleepRecord.date).nodup_iff).2 hm
    have hne : (List.insertionSort dateLe m).Pairwise (fun a b => a.date ≠ b.date) := by
      rw [List.Nodup, List.pairwise_map] at hnd
      exact hnd
    exact (hs.and hne).imp fun h => lt_of_le_of_ne h.1 h.2
  exact List.eq_of_perm_of_sorted hperm (key l hd)
    (key l2 (((hp.map SleepRecord.date).nodup_iff).1 hd))

/-- C5 counterexample.  `recordsDupSwapped` is a permutation of `recordsDup`
(two records share date 6, and metric values differ between them), yet
`analyze` returns different results on the two orders: the stable sort
preserves the input order of the two date-6 nights, so the successive
differences of total sleep — and with them the baseline RMSSD — change. -/
theorem analyze_order_counterexample :
    recordsDup.Perm recordsDupSwapped ∧ analyze recordsDup ≠ analyze recordsDupSwapped := by
  constructor
  · rw [recordsDup, recordsDupSwapped]
    exact ((((((List.Perm.swap _ _ _).cons _).cons _).cons _).cons _).cons _).cons _
  · have hs1 : analyze recordsDup = .ok (analyzeResult recordsDup) := by
      rw [analyze, List.Sorted.insertionSort_eq
          (show List.Sorted dateLe recordsDup by
            norm_num [recordsDup, List.sorted_cons, dateLe]),
        analyzeSorted_eq_ok (by norm_num [recordsDup])]
    have hs2 : analyze recordsDupSwapped = .ok (analyzeResult recordsDupSwapped) := by
      rw [analyze, List.Sorted.insertionSort_eq
          (show List.Sorted dateLe recordsDupSwapped by
            norm_num [recordsDupSwapped, List.sorted_cons, dateLe]),
        analyzeSorted_eq_ok (by norm_num [recordsDupSwapped])]
    have hr1 : (analyzeResult recordsDup).baseline.rmssd = Real.sqrt (14200 / 13) := by
      show rmssdOf ((baselineWindow recordsDup).map (·.total_sleep_min)) = _
      rw [show baselineWindow recordsDup = recordsDup by
        rw [baselineWindow]; norm_num [recordsDup]]
      rw [rmssdOf]
      norm_num [recordsDup, succDiffs]
    have hr2 : (analyzeResult recordsDupSwapped).baseline.rmssd = Real.sqrt (16200 / 13) := by
      show rmssdOf ((baselineWindow recordsDupSwapped).map (·.total_sleep_min)) = _
      rw [show baselineWindow recordsDupSwapped = recordsDupSwapped by
        rw [baselineWindow]; norm_num [recordsDupSwapped]]
      rw [rmssdOf]
      norm_num [recordsDupSwapped, succDiffs]
    intro heq
    rw [hs1, hs2] at heq
    have hres : analyzeResult recordsDup = analyzeResult recordsDupSwapped :=
      Except.ok.inj heq
    have hrm := congrArg (fun r => r.baseline.rmssd) hres
    simp only at hrm
    rw [hr1, hr2] at hrm
    have hlt : Real.sqrt (14200 / 13) < Real.sqrt (16200 / 13) :=
      Real.sqrt_lt_sqrt (by norm_num) (by norm_num)
    exact absurd hrm (ne_of_lt hlt)

/-- C5 amended.  If the dates of the records are pairwise distinct, then
`analyze` is invariant under every permutation of the input sequence: the
chronological sort of the two sequences coincides, and the pipeline depends
only on the sorted sequence. -/
theorem analyze_perm_invariant (l l2 : List SleepRecord) (hp : l.Perm l2)
    (hd : (l.map SleepRecord.date).Nodup) :
    analyze l = analyze l2 := by
  rw [analyze, analyze, insertionSort_eq_of_perm_of_nodup_dates hp hd]

/-- Witness for C5 (amended): `records14` and its first-two-swapped
permutation have pairwise-distinct dates and analyze identically. -/
theorem analyze_perm_invariant_witness :
    analyze records14 = analyze records14Swapped :=
  analyze_perm_invariant records14 records14Swapped
    (by rw [records14, records14Swapped]; exact List.Perm.swap _ _ _)
    (by rw [records14]; norm_num [List.nodup_cons])

end SleepAnalysis
